import Mathlib

/-!
Verification development for the pytong repository: a family of scripts that
fetch JSON from HTTP endpoints, follow pagination (link-style or
total/offset-style), optionally reshape items, and stream rows to a CSV sink.
The definitions below are a shallow embedding of the Python sources
(async_fetch_and_save_v4_pagination.py, v5_total_offset.py, v6_original.py,
v7_with_parsing.py); the theorems settle the specification claims against them.
-/

/-- Python values as they occur in this program: decoded JSON bodies
(objects, arrays, strings, numbers, booleans, null) plus the None returned by
fetch_json on a caught error.  A JSON object is modelled as its entry list. -/
inductive PyVal where
  | none : PyVal
  | bool : Bool → PyVal
  | int : Int → PyVal
  | str : String → PyVal
  | list : List PyVal → PyVal
  | dict : List (String × PyVal) → PyVal

/-- Python dict.get(key, default): value of the first matching key, else the
default (Python dicts have unique keys, so first-match is exact). -/
def pyDictGetD : List (String × PyVal) → String → PyVal → PyVal
  | [], _, d => d
  | (k, x) :: rest, key, d => if k = key then x else pyDictGetD rest key d

/-- Python dict.get(key) with the implicit None default. -/
def pyDictGet (es : List (String × PyVal)) (key : String) : PyVal :=
  pyDictGetD es key PyVal.none

/-- The method call v.get(key, default) on a decoded JSON object.  The sources
only call .get on dict-shaped values; theorems that quantify over arbitrary
responses carry shape hypotheses restricting to that domain. -/
def PyVal.get (v : PyVal) (key : String) (default : PyVal) : PyVal :=
  match v with
  | .dict es => pyDictGetD es key default
  | _ => default

/-- Python truthiness, as used by the sources in the tests
"if not response", "if page_response", "if items_on_page", "while next_url". -/
def PyVal.truthy : PyVal → Bool
  | .none => false
  | .bool b => b
  | .int n => n != 0
  | .str s => s != ""
  | .list l => !l.isEmpty
  | .dict es => !es.isEmpty

/-- Elements of a JSON array; the sources iterate item lists with
writer.writerows and list comprehensions, which expect list-shaped values. -/
def PyVal.asList : PyVal → List PyVal
  | .list l => l
  | _ => []

/-- Entries of a JSON object; get_item_data expects dict-shaped items. -/
def PyVal.asDict : PyVal → List (String × PyVal)
  | .dict es => es
  | _ => []

/-- String content of a JSON string; next-page URLs are strings. -/
def PyVal.asStr : PyVal → String
  | .str s => s
  | _ => ""

/-- Integer content of a JSON number; the total_key value feeds range(). -/
def PyVal.toInt : PyVal → Int
  | .int n => n
  | .bool b => if b then 1 else 0
  | _ => 0

/-- Number of elements of the Python object range(start, stop, step),
following CPython's get_len_of_range computation.  A zero step raises
ValueError in Python; callers of this model emit that error explicitly. -/
def pyRangeLen (start stop step : Int) : Nat :=
  if 0 < step then
    if start < stop then ((stop - start - 1).toNat / step.toNat) + 1 else 0
  else if step < 0 then
    if stop < start then ((start - stop - 1).toNat / (-step).toNat) + 1 else 0
  else 0

/-- The value sequence of the Python object range(start, stop, step). -/
def pyRange (start stop step : Int) : List Int :=
  (List.range (pyRangeLen start stop step)).map (fun (i : Nat) => start + step * (i : Int))

/-- The urls_to_fetch loop of the total/offset strategy (v5 step 3, v6/v7
step 3): one PageRequest per offset in
range(max_results_per_page, total_items, max_results_per_page).
A request is identified by its offset. -/
def urlsToFetch (pageSize total : Int) : List Int :=
  pyRange pageSize total pageSize

/-- What the body of response.json() does for one request, as seen by
fetch_json.  A content-type mismatch makes aiohttp raise ContentTypeError, a
subclass of ClientError; a body that is not valid JSON makes the underlying
json.loads raise json.JSONDecodeError, which is a ValueError and is NOT a
ClientError. -/
inductive BodyCase where
  | contentTypeMismatch : BodyCase
  | invalidJson : BodyCase
  | jsonOk : PyVal → BodyCase

/-- Outcome of one HTTP exchange: either the transport raises
aiohttp.ClientError, or a response with a status code and a body arrives. -/
inductive HttpOutcome where
  | clientError : HttpOutcome
  | response : Nat → BodyCase → HttpOutcome

/-- The Python exceptions relevant to fetch_json. -/
inductive PyExn where
  | clientError : PyExn
  | jsonDecodeError : PyExn

/-- The try-block body of fetch_json: session.get may raise ClientError;
response.raise_for_status raises ClientResponseError (a ClientError) for
status codes 400 and above; response.json raises ContentTypeError (a
ClientError) on a content-type mismatch and json.JSONDecodeError on a
malformed body. -/
def fetch_json_try (o : HttpOutcome) : Except PyExn PyVal :=
  match o with
  | .clientError => Except.error PyExn.clientError
  | .response status body =>
    if 400 ≤ status then Except.error PyExn.clientError
    else
      match body with
      | .contentTypeMismatch => Except.error PyExn.clientError
      | .invalidJson => Except.error PyExn.jsonDecodeError
      | .jsonOk v => Except.ok v

/-- fetch_json (v4 through v7): the try body wrapped in
except aiohttp.ClientError, which returns None; any other exception
propagates to the caller. -/
def fetch_json (o : HttpOutcome) : Except PyExn (Option PyVal) :=
  match fetch_json_try o with
  | Except.ok v => Except.ok (some v)
  | Except.error PyExn.clientError => Except.ok Option.none
  | Except.error e => Except.error e

/-- Observable events of one run of the v6/v7 main pipeline, in program
order: an HTTP page request (identified by its offset), the CSV header
write, one CSV data row write, an uncaught Python exception (for example the
ValueError raised by range with a zero step), and an explicit pre-flight
configuration error, which this code never emits. -/
inductive Ev where
  | request : Int → Ev
  | header : Ev
  | row : PyVal → Ev
  | pyError : Ev
  | configError : Ev

def Ev.isHeader : Ev → Bool
  | .header => true
  | _ => false

def Ev.isRow : Ev → Bool
  | .row _ => true
  | _ => false

def Ev.isRequest : Ev → Bool
  | .request _ => true
  | _ => false

def Ev.isPyError : Ev → Bool
  | .pyError => true
  | _ => false

def Ev.isConfigError : Ev → Bool
  | .configError => true
  | _ => false

def Ev.isWrite (e : Ev) : Bool := e.isHeader || e.isRow

/-- The data row carried by one event, if any. -/
def Ev.rowVal : Ev → Option PyVal
  | .row v => some v
  | _ => Option.none

/-- The data rows carried by a trace, in write order. -/
def rowVals (t : List Ev) : List PyVal :=
  t.filterMap Ev.rowVal

/-- The items one completed page contributes in the step-4 loop of v6 main:
a falsy page result is skipped entirely, a truthy page contributes the
value of items_key when that value is truthy, and nothing otherwise. -/
def pageRows (itemsKey : String) (page : PyVal) : List PyVal :=
  if page.truthy then
    let items := page.get itemsKey (PyVal.list [])
    if items.truthy then items.asList else []
  else []

/-- The step-4 loop of v6 main: each completed page result, in completion
order, appends its rows to the sink; no header check is performed here. -/
def remainingWrites (itemsKey : String) (pages : List PyVal) : List Ev :=
  pages.flatMap (fun page => (pageRows itemsKey page).map Ev.row)

/-- The main function of async_fetch_and_save_v6_original.py as an event
trace.  pageSize, totalKey and itemsKey are the configuration constants;
initialResp is the fetch_json result for the initial request; remaining is
the list of fetch_json results for the generated offset requests, in
completion order.  Program order: issue the initial request; abort if its
result is falsy; read total_items and the first page of items; write header
and first-page rows if the items value is truthy; compute the remaining
offsets with range (a zero pageSize raises ValueError there); return early
if no offsets remain; otherwise issue all remaining requests and stream each
completed page to the sink. -/
def mainTraceV6 (pageSize : Int) (totalKey itemsKey : String)
    (initialResp : PyVal) (remaining : List PyVal) : List Ev :=
  Ev.request 0 ::
    (if initialResp.truthy then
      (if (initialResp.get itemsKey (PyVal.list [])).truthy
        then Ev.header :: (initialResp.get itemsKey (PyVal.list [])).asList.map Ev.row
        else [])
      ++ (if pageSize = 0 then [Ev.pyError]
        else if (urlsToFetch pageSize
            ((initialResp.get totalKey (PyVal.int 0)).toInt)).isEmpty then []
        else (urlsToFetch pageSize
            ((initialResp.get totalKey (PyVal.int 0)).toInt)).map Ev.request
          ++ remainingWrites itemsKey remaining)
    else [])

/-- The parsing helper get_item_data of
async_fetch_and_save_v7_with_parsing.py: builds a new dictionary from a raw
item, renaming six keys via raw_item.get (absent keys become None). -/
def get_item_data (raw_item : List (String × PyVal)) : List (String × PyVal) :=
  [("product_id", pyDictGet raw_item "id"),
   ("product_name", pyDictGet raw_item "title"),
   ("brand_name", pyDictGet raw_item "brand"),
   ("category", pyDictGet raw_item "category"),
   ("price_usd", pyDictGet raw_item "price"),
   ("customer_rating", pyDictGet raw_item "rating")]

/-- One row of v7: get_item_data applied to an item of the API response. -/
def parseRow (it : PyVal) : PyVal :=
  PyVal.dict (get_item_data it.asDict)

/-- The step-4 loop of v7 main: same as v6, but each page of items is passed
through get_item_data before being written. -/
def remainingWritesParsed (itemsKey : String) (pages : List PyVal) : List Ev :=
  pages.flatMap (fun page => ((pageRows itemsKey page).map parseRow).map Ev.row)

/-- The main function of async_fetch_and_save_v7_with_parsing.py as an event
trace: identical control flow to v6, with get_item_data applied to every
item of the first page and of each completed remaining page. -/
def mainTraceV7 (pageSize : Int) (totalKey itemsKey : String)
    (initialResp : PyVal) (remaining : List PyVal) : List Ev :=
  Ev.request 0 ::
    (if initialResp.truthy then
      (if (initialResp.get itemsKey (PyVal.list [])).truthy
        then Ev.header
          :: ((initialResp.get itemsKey (PyVal.list [])).asList.map parseRow).map Ev.row
        else [])
      ++ (if pageSize = 0 then [Ev.pyError]
        else if (urlsToFetch pageSize
            ((initialResp.get totalKey (PyVal.int 0)).toInt)).isEmpty then []
        else (urlsToFetch pageSize
            ((initialResp.get totalKey (PyVal.int 0)).toInt)).map Ev.request
          ++ remainingWritesParsed itemsKey remaining)
    else [])

/-- fetch_all_pages of async_fetch_and_save_v4_pagination.py: starting from
an initial URL, repeatedly fetch, stop on a falsy result, extend the
accumulator with the results list of the page, and continue while the next
reference is truthy.  respond gives the fetch_json result for each URL; the
fuel argument bounds the number of iterations of the while loop, so that a
cyclic next-chain (which would not terminate in Python either) is cut off. -/
def fetch_all_pages (respond : String → PyVal) : Nat → String → List PyVal
  | 0, _ => []
  | fuel + 1, url =>
    let rd := respond url
    if rd.truthy then
      let items := (rd.get "results" (PyVal.list [])).asList
      let nxt := rd.get "next" PyVal.none
      if nxt.truthy then items ++ fetch_all_pages respond fuel nxt.asStr
      else items
    else []

/-- A finite chain of link-style pages under respond, starting at a given
URL, together with the item lists the chain carries page by page: the chain
ends at a page whose fetch fails (falsy result, contributing no items) or at
a page with no truthy next reference; it continues through pages whose next
reference is a non-empty string. -/
inductive Chain (respond : String → PyVal) : String → List (List PyVal) → Prop where
  | fail (url : String) (h : (respond url).truthy = false) : Chain respond url []
  | last (url : String) (h : (respond url).truthy = true)
      (hn : ((respond url).get "next" PyVal.none).truthy = false) :
      Chain respond url [((respond url).get "results" (PyVal.list [])).asList]
  | step (url nxt : String) (rest : List (List PyVal))
      (h : (respond url).truthy = true)
      (hn : (respond url).get "next" PyVal.none = PyVal.str nxt)
      (hne : nxt ≠ "")
      (hc : Chain respond nxt rest) :
      Chain respond url (((respond url).get "results" (PyVal.list [])).asList :: rest)

/-- A two-page link-style environment used as a concrete witness input. -/
def respondW : String → PyVal := fun u =>
  if u = "a" then
    PyVal.dict [("results", PyVal.list [PyVal.int 1]), ("next", PyVal.str "b")]
  else if u = "b" then
    PyVal.dict [("results", PyVal.list [PyVal.int 2])]
  else PyVal.none

/-- An environment whose every response is the falsy empty JSON object. -/
def respondEmpty : String → PyVal := fun _ => PyVal.dict []

/-- Helper: the length of the generated offset list, for p, t natural. -/
theorem urlsToFetch_length (p t : Nat) (hp : 0 < p) :
    (urlsToFetch (p : Int) (t : Int)).length = (t - 1) / p := by
  unfold urlsToFetch pyRange pyRangeLen
  have hp' : (0 : Int) < (p : Int) := by exact_mod_cast hp
  simp only [List.length_map, List.length_range]
  rw [if_pos hp']
  by_cases hlt : (p : Int) < (t : Int)
  · rw [if_pos hlt]
    have hplt : p < t := by exact_mod_cast hlt
    have h1 : ((t : Int) - (p : Int) - 1).toNat = t - p - 1 := by omega
    have h2 : ((p : Int)).toNat = p := by omega
    rw [h1, h2]
    have e1 : t - 1 = (t - p - 1) + p := by omega
    rw [e1, Nat.add_div_right _ hp]
  · rw [if_neg hlt]
    have hle : t ≤ p := by omega
    have : t - 1 < p := by omega
    rw [Nat.div_eq_of_lt this]

/-- Helper: every generated offset is a positive multiple of the page size
strictly below the total. -/
theorem urlsToFetch_mem (p t : Nat) (hp : 0 < p) (x : Int)
    (hx : x ∈ urlsToFetch (p : Int) (t : Int)) :
    ∃ k : Nat, 1 ≤ k ∧ x = (p : Int) * k ∧ x < (t : Int) := by
  unfold urlsToFetch pyRange at hx
  simp only [List.mem_map, List.mem_range] at hx
  obtain ⟨i, hi, rfl⟩ := hx
  have hlen : pyRangeLen (p : Int) (t : Int) (p : Int) = (urlsToFetch (p : Int) (t : Int)).length := by
    unfold urlsToFetch pyRange
    simp only [List.length_map, List.length_range]
  rw [hlen, urlsToFetch_length p t hp] at hi
  have hi2 : i < (t - 1) / p := hi
  have hmul : (i + 1) * p ≤ t - 1 := (Nat.le_div_iff_mul_le hp).mp hi2
  refine ⟨i + 1, by omega, ?_, ?_⟩
  · push_cast
    ring
  · have h1 : p * i + p ≤ t - 1 := by
      have : (i + 1) * p = p * i + p := by ring
      omega
    have h2 : ((p * i : Nat) : Int) = (p : Int) * (i : Int) := by push_cast; ring
    omega

/-- C1: for every configured page size p greater than 0 and total count t at
least 0, the total/offset strategy generates exactly ceil(t/p) - 1 remaining
PageRequests (page 0 is fetched separately) when t is positive and 0 when t is
zero, and every generated request carries an offset that is a positive
multiple of p strictly below t. -/
theorem offset_strategy_request_count (p t : Nat) (hp : 0 < p) :
    (urlsToFetch (p : Int) (t : Int)).length
        = (if t = 0 then 0 else (t + p - 1) / p - 1)
    ∧ ∀ x ∈ urlsToFetch (p : Int) (t : Int),
        ∃ k : Nat, 1 ≤ k ∧ x = (p : Int) * k ∧ x < (t : Int) := by
  constructor
  · rw [urlsToFetch_length p t hp]
    by_cases ht : t = 0
    · subst ht
      simp
    · rw [if_neg ht]
      have e1 : t + p - 1 = (t - 1) + p := by omega
      rw [e1, Nat.add_div_right _ hp, Nat.add_sub_cancel]
  · intro x hx
    exact urlsToFetch_mem p t hp x hx

/-- Witness for C1 at page size 20 and total 45: exactly 2 remaining requests
with offsets 20 and 40, matching ceil(45/20) - 1. -/
theorem offset_strategy_request_count_witness :
    0 < 20
    ∧ ((urlsToFetch (20 : Int) (45 : Int)).length
          = (if (45 : Nat) = 0 then 0 else ((45 : Nat) + 20 - 1) / 20 - 1)
        ∧ ∀ x ∈ urlsToFetch (20 : Int) (45 : Int),
            ∃ k : Nat, 1 ≤ k ∧ x = ((20 : Nat) : Int) * k ∧ x < ((45 : Nat) : Int)) :=
  ⟨by decide, offset_strategy_request_count 20 45 (by decide)⟩

/-- C2 counterexample: a successfully transported 200 response whose body is
not valid JSON does not become a Failure result; fetch_json raises
json.JSONDecodeError past its boundary. -/
theorem fetch_json_invalid_json_raises :
    fetch_json (HttpOutcome.response 200 BodyCase.invalidJson)
        = Except.error PyExn.jsonDecodeError
    ∧ fetch_json (HttpOutcome.response 200 BodyCase.invalidJson)
        ≠ Except.ok Option.none :=
  ⟨rfl, fun h => Except.noConfusion h⟩

/-- C2 amended: fetch_json returns Failure (None) on every transport-level
error, every status of 400 or above, and every content-type mismatch (all
aiohttp.ClientError cases); the only exception that escapes its boundary is
json.JSONDecodeError, raised when a transported sub-400 body is not valid
JSON. -/
theorem fetch_json_error_classification (o : HttpOutcome) :
    (∀ e, fetch_json o = Except.error e →
      e = PyExn.jsonDecodeError
        ∧ ∃ s, o = HttpOutcome.response s BodyCase.invalidJson ∧ s < 400)
    ∧ (fetch_json_try o = Except.error PyExn.clientError →
        fetch_json o = Except.ok Option.none)
    ∧ (∀ v, fetch_json_try o = Except.ok v → fetch_json o = Except.ok (some v)) := by
  refine ⟨?_, ?_, ?_⟩
  · intro e he
    match o with
    | .clientError => simp [fetch_json, fetch_json_try] at he
    | .response s b =>
      by_cases hs : 400 ≤ s
      · simp [fetch_json, fetch_json_try, if_pos hs] at he
      · match b with
        | .contentTypeMismatch => simp [fetch_json, fetch_json_try, if_neg hs] at he
        | .invalidJson =>
          simp [fetch_json, fetch_json_try, if_neg hs] at he
          exact ⟨he.symm, s, rfl, by omega⟩
        | .jsonOk v => simp [fetch_json, fetch_json_try, if_neg hs] at he
  · intro h
    simp [fetch_json, h]
  · intro v h
    simp [fetch_json, h]

/-- Witness for C2 amended at a concrete 404 response: the try body raises a
ClientError there and fetch_json returns the Failure value None. -/
theorem fetch_json_error_classification_witness :
    fetch_json_try (HttpOutcome.response 404 BodyCase.invalidJson)
        = Except.error PyExn.clientError
    ∧ fetch_json (HttpOutcome.response 404 BodyCase.invalidJson)
        = Except.ok Option.none :=
  ⟨rfl, (fetch_json_error_classification
      (HttpOutcome.response 404 BodyCase.invalidJson)).2.1 rfl⟩

theorem rowVals_append (a b : List Ev) : rowVals (a ++ b) = rowVals a ++ rowVals b :=
  List.filterMap_append a b Ev.rowVal

theorem rowVals_map_row (l : List PyVal) : rowVals (l.map Ev.row) = l := by
  unfold rowVals
  rw [List.filterMap_map]
  have h : (Ev.rowVal ∘ Ev.row) = some := by funext v; rfl
  rw [h, List.filterMap_some]

theorem rowVals_map_request (l : List Int) : rowVals (l.map Ev.request) = [] := by
  unfold rowVals
  rw [List.filterMap_map]
  have h : (Ev.rowVal ∘ Ev.request) = fun _ => (Option.none : Option PyVal) := by
    funext v; rfl
  rw [h]
  simp

theorem filter_isWrite_map_row (l : List PyVal) :
    (l.map Ev.row).filter Ev.isWrite = l.map Ev.row := by
  induction l with
  | nil => rfl
  | cons a l ih => simp [Ev.isWrite, Ev.isRow, Ev.isHeader, ih]

theorem filter_isWrite_map_request (l : List Int) :
    (l.map Ev.request).filter Ev.isWrite = [] := by
  induction l with
  | nil => rfl
  | cons a l ih => simp [Ev.isWrite, Ev.isRow, Ev.isHeader, ih]

theorem countP_isHeader_map_row (l : List PyVal) :
    (l.map Ev.row).countP Ev.isHeader = 0 := by
  induction l with
  | nil => rfl
  | cons a l ih => simp [List.countP_cons, Ev.isHeader, ih]

theorem countP_isHeader_map_request (l : List Int) :
    (l.map Ev.request).countP Ev.isHeader = 0 := by
  induction l with
  | nil => rfl
  | cons a l ih => simp [List.countP_cons, Ev.isHeader, ih]

/-- The step-4 writes are exactly the row events of the concatenated page
contributions. -/
theorem remainingWrites_eq_map (itemsKey : String) (pages : List PyVal) :
    remainingWrites itemsKey pages
      = (pages.flatMap (pageRows itemsKey)).map Ev.row := by
  unfold remainingWrites
  induction pages with
  | nil => rfl
  | cons p l ih => simp [List.flatMap_cons, ih]

theorem isHeader_comp_row : Ev.isHeader ∘ Ev.row = fun _ => false := rfl

theorem isHeader_comp_request : Ev.isHeader ∘ Ev.request = fun _ => false := rfl

theorem isWrite_comp_row : Ev.isWrite ∘ Ev.row = fun _ => true := rfl

theorem isWrite_comp_request : Ev.isWrite ∘ Ev.request = fun _ => false := rfl

theorem rowVal_comp_row : Ev.rowVal ∘ Ev.row = some := rfl

theorem rowVal_comp_request :
    Ev.rowVal ∘ Ev.request = fun _ => (Option.none : Option PyVal) := rfl

theorem filterMap_const_none {α β : Type} (l : List α) :
    l.filterMap (fun _ => (Option.none : Option β)) = [] := by
  induction l with
  | nil => rfl
  | cons a l ih => simp [List.filterMap_cons, ih]

theorem truthy_list_nil : (PyVal.list []).truthy = false := rfl

theorem truthy_list_cons (a : PyVal) (l : List PyVal) :
    (PyVal.list (a :: l)).truthy = true := rfl

theorem asList_list (l : List PyVal) : (PyVal.list l).asList = l := rfl

theorem filterMap_some_comp {α β : Type} (f : α → β) (l : List α) :
    l.filterMap (fun x => some (f x)) = l.map f := by
  induction l with
  | nil => rfl
  | cons a l ih => simp [List.filterMap_cons, ih]

theorem rowVal_comp_row_comp_parseRow :
    Ev.rowVal ∘ Ev.row ∘ parseRow = fun x => some (parseRow x) := rfl

/-- C3 counterexample: with page size 20, an initial response reporting
total 40 with an empty first-page item list, and one remaining page carrying
one item, the run writes one data row and never writes the header, so the
header is not written strictly before the first data row and the file does
not start with the field names. -/
theorem header_missing_row_written :
    (mainTraceV6 20 "total" "products"
        (PyVal.dict [("total", PyVal.int 40), ("products", PyVal.list [])])
        [PyVal.dict [("products", PyVal.list [PyVal.int 7])]]).countP Ev.isHeader = 0
    ∧ (rowVals (mainTraceV6 20 "total" "products"
        (PyVal.dict [("total", PyVal.int 40), ("products", PyVal.list [])])
        [PyVal.dict [("products", PyVal.list [PyVal.int 7])]])).length = 1 :=
  ⟨rfl, rfl⟩

/-- C3 amended: in every run of the v6 streaming pipeline the header is
written at most once, every header write precedes every data-row write, and
a header is written only if the first page produced at least one item; but
when the initial response is truthy with a falsy item list while the offset
computation still yields further pages, later rows are written without any
header, so the header does not always precede the data rows of a non-empty
run. -/
theorem header_invariant_amended (pageSize : Int) (tk ik : String)
    (r0 : PyVal) (rem : List PyVal)
    (h0 : ∃ l, r0.get ik (PyVal.list []) = PyVal.list l) :
    (mainTraceV6 pageSize tk ik r0 rem).countP Ev.isHeader ≤ 1
    ∧ (mainTraceV6 pageSize tk ik r0 rem).filter Ev.isWrite
        = List.replicate ((mainTraceV6 pageSize tk ik r0 rem).countP Ev.isHeader)
            Ev.header
          ++ (rowVals (mainTraceV6 pageSize tk ik r0 rem)).map Ev.row
    ∧ ((mainTraceV6 pageSize tk ik r0 rem).countP Ev.isHeader = 1
        → rowVals (mainTraceV6 pageSize tk ik r0 rem) ≠ []) := by
  obtain ⟨l0, hl0⟩ := h0
  unfold mainTraceV6
  rw [remainingWrites_eq_map]
  simp only [hl0]
  by_cases ht : r0.truthy
  all_goals by_cases hps : pageSize = 0
  all_goals by_cases hof :
    (urlsToFetch pageSize ((r0.get tk (PyVal.int 0)).toInt)).isEmpty
  all_goals cases l0 with
  | nil =>
    simp [ht, hps, hof, truthy_list_nil, truthy_list_cons, asList_list, rowVals,
      Ev.rowVal, List.countP_cons, List.countP_append, List.countP_map,
      List.filter_append, List.filter_map, List.filterMap_append,
      List.filterMap_map, Ev.isHeader, Ev.isWrite, Ev.isRow, isHeader_comp_row,
      isHeader_comp_request, isWrite_comp_row, isWrite_comp_request,
      rowVal_comp_row, rowVal_comp_request, filterMap_const_none]
  | cons a l =>
    simp [ht, hps, hof, truthy_list_nil, truthy_list_cons, asList_list, rowVals,
      Ev.rowVal, List.countP_cons, List.countP_append, List.countP_map,
      List.filter_append, List.filter_map, List.filterMap_append,
      List.filterMap_map, Ev.isHeader, Ev.isWrite, Ev.isRow, isHeader_comp_row,
      isHeader_comp_request, isWrite_comp_row, isWrite_comp_request,
      rowVal_comp_row, rowVal_comp_request, filterMap_const_none]

/-- Witness for C3 amended on a normal run with a non-empty first page and
one remaining page: one header, written first among the writes, followed by
the data rows. -/
theorem header_invariant_amended_witness :
    (∃ l, (PyVal.dict [("total", PyVal.int 40),
        ("products", PyVal.list [PyVal.int 1])]).get "products" (PyVal.list [])
          = PyVal.list l)
    ∧ ((mainTraceV6 20 "total" "products"
          (PyVal.dict [("total", PyVal.int 40), ("products", PyVal.list [PyVal.int 1])])
          [PyVal.dict [("products", PyVal.list [PyVal.int 2])]]).countP Ev.isHeader ≤ 1
        ∧ (mainTraceV6 20 "total" "products"
            (PyVal.dict [("total", PyVal.int 40), ("products", PyVal.list [PyVal.int 1])])
            [PyVal.dict [("products", PyVal.list [PyVal.int 2])]]).filter Ev.isWrite
          = List.replicate ((mainTraceV6 20 "total" "products"
              (PyVal.dict [("total", PyVal.int 40), ("products", PyVal.list [PyVal.int 1])])
              [PyVal.dict [("products", PyVal.list [PyVal.int 2])]]).countP Ev.isHeader)
              Ev.header
            ++ (rowVals (mainTraceV6 20 "total" "products"
              (PyVal.dict [("total", PyVal.int 40), ("products", PyVal.list [PyVal.int 1])])
              [PyVal.dict [("products", PyVal.list [PyVal.int 2])]])).map Ev.row
        ∧ ((mainTraceV6 20 "total" "products"
              (PyVal.dict [("total", PyVal.int 40), ("products", PyVal.list [PyVal.int 1])])
              [PyVal.dict [("products", PyVal.list [PyVal.int 2])]]).countP Ev.isHeader = 1
            → rowVals (mainTraceV6 20 "total" "products"
                (PyVal.dict [("total", PyVal.int 40), ("products", PyVal.list [PyVal.int 1])])
                [PyVal.dict [("products", PyVal.list [PyVal.int 2])]]) ≠ [])) :=
  ⟨⟨[PyVal.int 1], rfl⟩,
    header_invariant_amended 20 "total" "products"
      (PyVal.dict [("total", PyVal.int 40), ("products", PyVal.list [PyVal.int 1])])
      [PyVal.dict [("products", PyVal.list [PyVal.int 2])]]
      ⟨[PyVal.int 1], rfl⟩⟩

theorem isPyError_comp_row : Ev.isPyError ∘ Ev.row = fun _ => false := rfl

theorem isPyError_comp_request : Ev.isPyError ∘ Ev.request = fun _ => false := rfl

theorem isConfigError_comp_row : Ev.isConfigError ∘ Ev.row = fun _ => false := rfl

theorem isConfigError_comp_request :
    Ev.isConfigError ∘ Ev.request = fun _ => false := rfl

theorem isRequest_comp_row : Ev.isRequest ∘ Ev.row = fun _ => false := rfl

theorem isRequest_comp_request : Ev.isRequest ∘ Ev.request = fun _ => true := rfl

/-- A falsy page result in the completion-order list contributes nothing to
the step-4 writes. -/
theorem remainingWrites_skip (ik : String) (l1 l2 : List PyVal) (bad : PyVal)
    (hbad : bad.truthy = false) :
    remainingWrites ik (l1 ++ bad :: l2) = remainingWrites ik (l1 ++ l2) := by
  unfold remainingWrites
  simp [List.flatMap_append, List.flatMap_cons, pageRows, hbad]

theorem remainingWritesParsed_eq_map (ik : String) (pages : List PyVal) :
    remainingWritesParsed ik pages
      = (pages.flatMap (fun page => (pageRows ik page).map parseRow)).map Ev.row := by
  unfold remainingWritesParsed
  induction pages with
  | nil => rfl
  | cons p l ih => simp [List.flatMap_cons, List.map_map, List.map_flatMap, ih]

/-- Characterization of the rows a v6 run writes. -/
theorem rowVals_mainTraceV6_eq (p : Int) (tk ik : String) (r0 : PyVal)
    (rem : List PyVal) :
    rowVals (mainTraceV6 p tk ik r0 rem)
      = (if r0.truthy then
          (if (r0.get ik (PyVal.list [])).truthy
            then (r0.get ik (PyVal.list [])).asList else [])
          ++ (if p = 0 then []
              else if (urlsToFetch p ((r0.get tk (PyVal.int 0)).toInt)).isEmpty then []
              else rem.flatMap (pageRows ik))
        else []) := by
  unfold mainTraceV6
  rw [remainingWrites_eq_map]
  by_cases h1 : r0.truthy
  all_goals by_cases h2 : (r0.get ik (PyVal.list [])).truthy
  all_goals by_cases h3 : p = 0
  all_goals by_cases h4 :
    (urlsToFetch p ((r0.get tk (PyVal.int 0)).toInt)).isEmpty
  all_goals
    simp [h1, h2, h3, h4, rowVals, Ev.rowVal, List.filterMap_cons,
      List.filterMap_append, List.filterMap_map, rowVal_comp_row,
      rowVal_comp_request, filterMap_const_none, List.filterMap_some,
      rowVal_comp_row_comp_parseRow, filterMap_some_comp]

/-- Characterization of the rows a v7 run writes. -/
theorem rowVals_mainTraceV7_eq (p : Int) (tk ik : String) (r0 : PyVal)
    (rem : List PyVal) :
    rowVals (mainTraceV7 p tk ik r0 rem)
      = (if r0.truthy then
          (if (r0.get ik (PyVal.list [])).truthy
            then (r0.get ik (PyVal.list [])).asList.map parseRow else [])
          ++ (if p = 0 then []
              else if (urlsToFetch p ((r0.get tk (PyVal.int 0)).toInt)).isEmpty then []
              else (rem.flatMap (fun page => (pageRows ik page).map parseRow)))
        else []) := by
  unfold mainTraceV7
  rw [remainingWritesParsed_eq_map]
  by_cases h1 : r0.truthy
  all_goals by_cases h2 : (r0.get ik (PyVal.list [])).truthy
  all_goals by_cases h3 : p = 0
  all_goals by_cases h4 :
    (urlsToFetch p ((r0.get tk (PyVal.int 0)).toInt)).isEmpty
  all_goals
    simp [h1, h2, h3, h4, rowVals, Ev.rowVal, List.filterMap_cons,
      List.filterMap_append, List.filterMap_map, rowVal_comp_row,
      rowVal_comp_request, filterMap_const_none, List.filterMap_some,
      rowVal_comp_row_comp_parseRow, filterMap_some_comp]

/-- This code never emits a configuration error. -/
theorem countP_isConfigError_mainTraceV6 (p : Int) (tk ik : String) (r0 : PyVal)
    (rem : List PyVal) :
    (mainTraceV6 p tk ik r0 rem).countP Ev.isConfigError = 0 := by
  unfold mainTraceV6
  rw [remainingWrites_eq_map]
  by_cases h1 : r0.truthy
  all_goals by_cases h2 : (r0.get ik (PyVal.list [])).truthy
  all_goals by_cases h3 : p = 0
  all_goals by_cases h4 :
    (urlsToFetch p ((r0.get tk (PyVal.int 0)).toInt)).isEmpty
  all_goals
    simp [h1, h2, h3, h4, List.countP_cons, List.countP_append, List.countP_map,
      isConfigError_comp_row, isConfigError_comp_request, Ev.isConfigError]

/-- With a non-zero page size, a v6 run raises no uncaught exception. -/
theorem countP_isPyError_mainTraceV6 (p : Int) (tk ik : String) (r0 : PyVal)
    (rem : List PyVal) (hps : p ≠ 0) :
    (mainTraceV6 p tk ik r0 rem).countP Ev.isPyError = 0 := by
  unfold mainTraceV6
  rw [remainingWrites_eq_map]
  by_cases h1 : r0.truthy
  all_goals by_cases h2 : (r0.get ik (PyVal.list [])).truthy
  all_goals by_cases h4 :
    (urlsToFetch p ((r0.get tk (PyVal.int 0)).toInt)).isEmpty
  all_goals
    simp [h1, h2, hps, h4, List.countP_cons, List.countP_append, List.countP_map,
      isPyError_comp_row, isPyError_comp_request, Ev.isPyError]

/-- C4: the failure of one page fetch does not cancel or abort the sibling
pages: the run trace with a falsy page result in the completion-order list
is exactly the trace without it (the failed page contributes zero rows while
every other page's rows are still written), and the run completes without an
uncaught exception. -/
theorem page_failure_isolated (pageSize : Int) (tk ik : String) (r0 : PyVal)
    (l1 l2 : List PyVal) (bad : PyVal)
    (hps : pageSize ≠ 0) (hbad : bad.truthy = false) :
    mainTraceV6 pageSize tk ik r0 (l1 ++ bad :: l2)
        = mainTraceV6 pageSize tk ik r0 (l1 ++ l2)
    ∧ (mainTraceV6 pageSize tk ik r0 (l1 ++ bad :: l2)).countP Ev.isPyError = 0 := by
  constructor
  · unfold mainTraceV6
    rw [remainingWrites_skip ik l1 l2 bad hbad]
  · exact countP_isPyError_mainTraceV6 pageSize tk ik r0 (l1 ++ bad :: l2) hps

/-- Witness for C4: five generated pages (total 120, page size 20) where the
third fails; the other four pages' rows survive, none are lost, and the run
does not raise. -/
theorem page_failure_isolated_witness :
    (20 : Int) ≠ 0
    ∧ PyVal.none.truthy = false
    ∧ (mainTraceV6 20 "total" "products"
          (PyVal.dict [("total", PyVal.int 120), ("products", PyVal.list [PyVal.int 0])])
          ([PyVal.dict [("products", PyVal.list [PyVal.int 1])],
            PyVal.dict [("products", PyVal.list [PyVal.int 2])]]
            ++ PyVal.none ::
              [PyVal.dict [("products", PyVal.list [PyVal.int 4])],
               PyVal.dict [("products", PyVal.list [PyVal.int 5])]])
        = mainTraceV6 20 "total" "products"
          (PyVal.dict [("total", PyVal.int 120), ("products", PyVal.list [PyVal.int 0])])
          ([PyVal.dict [("products", PyVal.list [PyVal.int 1])],
            PyVal.dict [("products", PyVal.list [PyVal.int 2])]]
            ++ [PyVal.dict [("products", PyVal.list [PyVal.int 4])],
                PyVal.dict [("products", PyVal.list [PyVal.int 5])]])
      ∧ (mainTraceV6 20 "total" "products"
          (PyVal.dict [("total", PyVal.int 120), ("products", PyVal.list [PyVal.int 0])])
          ([PyVal.dict [("products", PyVal.list [PyVal.int 1])],
            PyVal.dict [("products", PyVal.list [PyVal.int 2])]]
            ++ PyVal.none ::
              [PyVal.dict [("products", PyVal.list [PyVal.int 4])],
               PyVal.dict [("products", PyVal.list [PyVal.int 5])]])).countP
          Ev.isPyError = 0) :=
  ⟨by decide, rfl,
    page_failure_isolated 20 "total" "products"
      (PyVal.dict [("total", PyVal.int 120), ("products", PyVal.list [PyVal.int 0])])
      [PyVal.dict [("products", PyVal.list [PyVal.int 1])],
       PyVal.dict [("products", PyVal.list [PyVal.int 2])]]
      [PyVal.dict [("products", PyVal.list [PyVal.int 4])],
       PyVal.dict [("products", PyVal.list [PyVal.int 5])]]
      PyVal.none (by decide) rfl⟩

theorem truthy_none : PyVal.none.truthy = false := rfl

/-- C5 counterexample: with the configuration error page_size = -5 the
program does not fail fast: the initial HTTP request is still issued first,
no configuration error is ever reported, the run raises nothing, and it even
completes normally writing the first page's row. -/
theorem negative_pageSize_not_rejected :
    (mainTraceV6 (-5) "total" "products"
        (PyVal.dict [("total", PyVal.int 40), ("products", PyVal.list [PyVal.int 1])])
        []).head? = some (Ev.request 0)
    ∧ (mainTraceV6 (-5) "total" "products"
        (PyVal.dict [("total", PyVal.int 40), ("products", PyVal.list [PyVal.int 1])])
        []).countP Ev.isConfigError = 0
    ∧ (mainTraceV6 (-5) "total" "products"
        (PyVal.dict [("total", PyVal.int 40), ("products", PyVal.list [PyVal.int 1])])
        []).countP Ev.isPyError = 0
    ∧ (rowVals (mainTraceV6 (-5) "total" "products"
        (PyVal.dict [("total", PyVal.int 40), ("products", PyVal.list [PyVal.int 1])])
        [])).length = 1 :=
  ⟨rfl, rfl, rfl, rfl⟩

/-- C5 amended: the code contains no page-size validation at all.  For every
page size the very first trace event is the initial HTTP request, and no
configuration error is ever emitted; a page size of zero makes the run raise
an uncaught ValueError (from range with zero step) only after the initial
request has been issued and answered. -/
theorem pageSize_no_fail_fast (pageSize : Int) (tk ik : String)
    (r0 : PyVal) (rem : List PyVal) :
    (mainTraceV6 pageSize tk ik r0 rem).head? = some (Ev.request 0)
    ∧ (mainTraceV6 pageSize tk ik r0 rem).countP Ev.isConfigError = 0
    ∧ (pageSize = 0 → r0.truthy = true →
        (mainTraceV6 pageSize tk ik r0 rem).countP Ev.isPyError = 1) := by
  refine ⟨rfl, countP_isConfigError_mainTraceV6 pageSize tk ik r0 rem, ?_⟩
  intro hps ht
  unfold mainTraceV6
  by_cases h2 : (r0.get ik (PyVal.list [])).truthy
  all_goals
    simp [ht, hps, h2, List.countP_cons, List.countP_append, List.countP_map,
      isPyError_comp_row, Ev.isPyError]

/-- Witness for C5 amended at page size 0 with a truthy initial response:
the initial request is the first event, no configuration error appears, and
exactly one uncaught exception is raised afterwards. -/
theorem pageSize_no_fail_fast_witness :
    (0 : Int) = 0
    ∧ (PyVal.dict [("total", PyVal.int 40)]).truthy = true
    ∧ (mainTraceV6 0 "total" "products"
        (PyVal.dict [("total", PyVal.int 40)]) []).head? = some (Ev.request 0)
    ∧ (mainTraceV6 0 "total" "products"
        (PyVal.dict [("total", PyVal.int 40)]) []).countP Ev.isConfigError = 0
    ∧ (mainTraceV6 0 "total" "products"
        (PyVal.dict [("total", PyVal.int 40)]) []).countP Ev.isPyError = 1 :=
  ⟨rfl, rfl,
    (pageSize_no_fail_fast 0 "total" "products"
      (PyVal.dict [("total", PyVal.int 40)]) []).1,
    (pageSize_no_fail_fast 0 "total" "products"
      (PyVal.dict [("total", PyVal.int 40)]) []).2.1,
    (pageSize_no_fail_fast 0 "total" "products"
      (PyVal.dict [("total", PyVal.int 40)]) []).2.2 rfl rfl⟩

/-- C6: permuting the completion order in which the scheduler delivers the
remaining pages only permutes the rows written to the sink; the multiset of
rows is unchanged. -/
theorem completion_order_independence (pageSize : Int) (tk ik : String)
    (r0 : PyVal) (rem1 rem2 : List PyVal) (hperm : rem1.Perm rem2) :
    (rowVals (mainTraceV6 pageSize tk ik r0 rem1)).Perm
      (rowVals (mainTraceV6 pageSize tk ik r0 rem2)) := by
  rw [rowVals_mainTraceV6_eq, rowVals_mainTraceV6_eq]
  by_cases h1 : r0.truthy
  all_goals by_cases h3 : pageSize = 0
  all_goals by_cases h4 :
    (urlsToFetch pageSize ((r0.get tk (PyVal.int 0)).toInt)).isEmpty
  all_goals simp [h1, h3, h4]
  all_goals
    first
    | exact List.Perm.refl _
    | exact List.Perm.append_left _ (List.Perm.flatMap_right (pageRows ik) hperm)

/-- Witness for C6: two remaining pages delivered in swapped order produce
the same multiset of rows. -/
theorem completion_order_independence_witness :
    ([PyVal.dict [("products", PyVal.list [PyVal.int 1])],
      PyVal.dict [("products", PyVal.list [PyVal.int 2])]].Perm
      [PyVal.dict [("products", PyVal.list [PyVal.int 2])],
       PyVal.dict [("products", PyVal.list [PyVal.int 1])]])
    ∧ (rowVals (mainTraceV6 20 "total" "products"
        (PyVal.dict [("total", PyVal.int 60), ("products", PyVal.list [PyVal.int 0])])
        [PyVal.dict [("products", PyVal.list [PyVal.int 1])],
         PyVal.dict [("products", PyVal.list [PyVal.int 2])]])).Perm
        (rowVals (mainTraceV6 20 "total" "products"
          (PyVal.dict [("total", PyVal.int 60), ("products", PyVal.list [PyVal.int 0])])
          [PyVal.dict [("products", PyVal.list [PyVal.int 2])],
           PyVal.dict [("products", PyVal.list [PyVal.int 1])]])) :=
  ⟨List.Perm.swap (PyVal.dict [("products", PyVal.list [PyVal.int 2])])
      (PyVal.dict [("products", PyVal.list [PyVal.int 1])]) [],
    completion_order_independence 20 "total" "products"
      (PyVal.dict [("total", PyVal.int 60), ("products", PyVal.list [PyVal.int 0])])
      [PyVal.dict [("products", PyVal.list [PyVal.int 1])],
       PyVal.dict [("products", PyVal.list [PyVal.int 2])]]
      [PyVal.dict [("products", PyVal.list [PyVal.int 2])],
       PyVal.dict [("products", PyVal.list [PyVal.int 1])]]
      (List.Perm.swap (PyVal.dict [("products", PyVal.list [PyVal.int 2])])
        (PyVal.dict [("products", PyVal.list [PyVal.int 1])]) [])⟩

/-- C10: a falsy but successfully transported JSON body (empty object, empty
array, null, and so on) is handled exactly like a fetch Failure: it
terminates the link-following chain with no items of its own, it is skipped
by the step-4 streaming loop, and as an initial response it aborts the v6
run just as None does. -/
theorem falsy_page_like_failure (v : PyVal) (hv : v.truthy = false) :
    (∀ respond : String → PyVal, ∀ url : String, ∀ fuel : Nat,
        respond url = v → fetch_all_pages respond (fuel + 1) url = [])
    ∧ (∀ ik : String, ∀ l1 l2 : List PyVal,
        remainingWrites ik (l1 ++ v :: l2)
          = remainingWrites ik (l1 ++ PyVal.none :: l2))
    ∧ (∀ pageSize : Int, ∀ tk ik : String, ∀ rem : List PyVal,
        mainTraceV6 pageSize tk ik v rem
          = mainTraceV6 pageSize tk ik PyVal.none rem) := by
  refine ⟨?_, ?_, ?_⟩
  · intro respond url fuel h
    simp [fetch_all_pages, h, hv]
  · intro ik l1 l2
    rw [remainingWrites_skip ik l1 l2 v hv,
      remainingWrites_skip ik l1 l2 PyVal.none rfl]
  · intro pageSize tk ik rem
    unfold mainTraceV6
    simp [hv, truthy_none]

/-- Witness for C10 at the falsy empty JSON object: the chain stops with no
items, the streaming loop treats it as a skipped failure, and as an initial
response it aborts like None. -/
theorem falsy_page_like_failure_witness :
    (PyVal.dict []).truthy = false
    ∧ fetch_all_pages respondEmpty 1 "u" = []
    ∧ remainingWrites "products" ([] ++ PyVal.dict [] :: [])
        = remainingWrites "products" ([] ++ PyVal.none :: [])
    ∧ mainTraceV6 20 "total" "products" (PyVal.dict []) []
        = mainTraceV6 20 "total" "products" PyVal.none [] :=
  ⟨rfl,
    (falsy_page_like_failure (PyVal.dict []) rfl).1 respondEmpty "u" 0 rfl,
    (falsy_page_like_failure (PyVal.dict []) rfl).2.1 "products" [] [],
    (falsy_page_like_failure (PyVal.dict []) rfl).2.2 20 "total" "products" []⟩

/-- C9: for every finite chain of link-style pages, fetch_all_pages returns
exactly the concatenation, in chain order, of the item lists of the pages,
fetching sequentially from the initial URL and stopping when a page has no
truthy next reference or a page fetch fails (items of the pages before the
failure are kept, the failed page contributes nothing). -/
theorem link_following_concat (respond : String → PyVal) (url : String)
    (pages : List (List PyVal)) (hc : Chain respond url pages) :
    ∀ fuel : Nat, pages.length < fuel →
      fetch_all_pages respond fuel url = pages.flatten := by
  induction hc with
  | fail url h =>
    intro fuel hf
    cases fuel with
    | zero => omega
    | succ fuel => simp [fetch_all_pages, h]
  | last url h hn =>
    intro fuel hf
    cases fuel with
    | zero => omega
    | succ fuel => simp [fetch_all_pages, h, hn]
  | step url nxt rest h hn hne hc ih =>
    intro fuel hf
    cases fuel with
    | zero => omega
    | succ fuel =>
      have hb : (PyVal.str nxt).truthy = true := by
        simpa [PyVal.truthy] using hne
      have hlen : rest.length < fuel := by
        simp only [List.length_cons] at hf
        omega
      simp [fetch_all_pages, h, hn, hb, PyVal.asStr, ih fuel hlen]

/-- Witness for C9 on a concrete two-page chain: page a links to page b,
page b is last; the result is the concatenation of the two item lists. -/
theorem link_following_concat_witness :
    ([[PyVal.int 1], [PyVal.int 2]] : List (List PyVal)).length < 3
    ∧ fetch_all_pages respondW 3 "a"
        = ([[PyVal.int 1], [PyVal.int 2]] : List (List PyVal)).flatten :=
  ⟨by decide,
    link_following_concat respondW "a" [[PyVal.int 1], [PyVal.int 2]]
      (Chain.step "a" "b" [[PyVal.int 2]] rfl rfl (by decide)
        (Chain.last "b" rfl rfl))
      3 (by decide)⟩

/-- C7 counterexample: the item transformer is not idempotent.  On the item
with key id mapped to 1, one application yields a record whose product_id is
1, while a second application looks the source keys up in the renamed record
and yields a record whose product_id is None. -/
theorem get_item_data_not_idempotent :
    get_item_data (get_item_data [("id", PyVal.int 1)])
      ≠ get_item_data [("id", PyVal.int 1)] := by
  intro h
  have h2 := congrArg (fun es => pyDictGet es "product_id") h
  simp [get_item_data, pyDictGet, pyDictGetD] at h2

/-- C7 amended: the transformer is not idempotent.  Because it renames its
keys, a second application finds none of the source keys except category
(the one field whose output key equals its source key): applying the
transformer twice to any item equals applying it once to the item reduced to
its category value, nulling the other five fields. -/
theorem get_item_data_twice_collapses (raw : List (String × PyVal)) :
    get_item_data (get_item_data raw)
      = get_item_data [("category", pyDictGet raw "category")] := by
  simp [get_item_data, pyDictGet, pyDictGetD]

/-- Python dict.get returns the default when the key is absent. -/
theorem pyDictGetD_not_mem (es : List (String × PyVal)) (k : String) (d : PyVal)
    (h : k ∉ es.map Prod.fst) : pyDictGetD es k d = d := by
  induction es with
  | nil => rfl
  | cons e es ih =>
    simp only [List.map_cons, List.mem_cons] at h
    push_neg at h
    obtain ⟨h1, h2⟩ := h
    obtain ⟨k1, v1⟩ := e
    simp only [pyDictGetD]
    rw [if_neg (fun hh => h1 hh.symm)]
    exact ih h2

theorem mem_parseRow (v : PyVal) (l : List PyVal) (h : v ∈ l.map parseRow) :
    ∃ es, v = PyVal.dict (get_item_data es) := by
  rw [List.mem_map] at h
  obtain ⟨x, _, rfl⟩ := h
  exact ⟨x.asDict, rfl⟩

/-- C8: the item transformer is a pure total per-item function: its output
always carries exactly the six configured fields, any expected key that is
absent from the item yields None in the corresponding output field (it never
fails on a malformed item), and in the v7 pipeline every row ever written is
the transformer applied to some item, uniformly for the first page and for
every later page. -/
theorem item_transformer_total_uniform
    (raw : List (String × PyVal)) (pageSize : Int) (tk ik : String)
    (r0 : PyVal) (rem : List PyVal) :
    ((get_item_data raw).map Prod.fst
        = ["product_id", "product_name", "brand_name", "category", "price_usd",
           "customer_rating"])
    ∧ (∀ po ∈ [("product_id", "id"), ("product_name", "title"),
          ("brand_name", "brand"), ("category", "category"),
          ("price_usd", "price"), ("customer_rating", "rating")],
        po.2 ∉ raw.map Prod.fst
          → pyDictGet (get_item_data raw) po.1 = PyVal.none)
    ∧ (∀ v ∈ rowVals (mainTraceV7 pageSize tk ik r0 rem),
        ∃ es, v = PyVal.dict (get_item_data es)) := by
  refine ⟨rfl, ?_, ?_⟩
  · intro po hpo hab
    fin_cases hpo <;> exact pyDictGetD_not_mem raw _ PyVal.none hab
  · intro v hv
    rw [rowVals_mainTraceV7_eq] at hv
    by_cases h1 : r0.truthy
    · rw [if_pos h1] at hv
      rcases List.mem_append.mp hv with h | h
      · by_cases h2 : (r0.get ik (PyVal.list [])).truthy
        · rw [if_pos h2] at h
          exact mem_parseRow v _ h
        · rw [if_neg h2] at h
          exact absurd h (List.not_mem_nil v)
      · by_cases h3 : pageSize = 0
        · rw [if_pos h3] at h
          exact absurd h (List.not_mem_nil v)
        · rw [if_neg h3] at h
          by_cases h4 : (urlsToFetch pageSize ((r0.get tk (PyVal.int 0)).toInt)).isEmpty
          · rw [if_pos h4] at h
            exact absurd h (List.not_mem_nil v)
          · rw [if_neg h4] at h
            rcases List.mem_flatMap.mp h with ⟨page, hpage, hmem⟩
            exact mem_parseRow v _ hmem
    · rw [if_neg h1] at hv
      exact absurd hv (List.not_mem_nil v)

/-- Witness for C8: the absent key id of the empty item yields a None
product_id, and a v7 run that writes one row writes exactly the transformer
output for the underlying item. -/
theorem item_transformer_total_uniform_witness :
    pyDictGet (get_item_data []) "product_id" = PyVal.none
    ∧ (∃ es, PyVal.dict (get_item_data [("id", PyVal.int 5)])
        = PyVal.dict (get_item_data es)) := by
  constructor
  · exact (item_transformer_total_uniform [] 20 "total" "products"
      PyVal.none []).2.1 ("product_id", "id") (by decide) (by decide)
  · have hmem : PyVal.dict (get_item_data [("id", PyVal.int 5)])
        ∈ rowVals (mainTraceV7 20 "total" "products"
          (PyVal.dict [("total", PyVal.int 20),
            ("products", PyVal.list [PyVal.dict [("id", PyVal.int 5)]])]) []) :=
      List.Mem.head _
    exact (item_transformer_total_uniform [] 20 "total" "products"
      (PyVal.dict [("total", PyVal.int 20),
        ("products", PyVal.list [PyVal.dict [("id", PyVal.int 5)]])]) []).2.2
      _ hmem
